import Mathlib

/-! Verification of the agentic-api HTTP health service
(src/agentic-api/main.py) against its natural-language specification.

The two handler bodies are embedded as terms of a small statement
language together with a state-passing evaluator, so that purity,
termination and frame properties can be stated about the evaluation
of the transcribed code rather than about Lean constants.  The
application lifecycle (the lifespan hook running telemetry
configuration before any request is served) is embedded as a trace
of events.  The hosting framework (FastAPI) and the telemetry module
are external collaborators: their guarantees (default HTTP 200 for a
dict-returning handler, the lifespan ordering protocol) are modelled
from the specification, while the handler bodies, the route table and
the lifespan body are transcribed from the source.
-/

namespace AgenticApi

/-- A JSON value, the shape of data returned by the handlers. -/
inductive Json where
  | null : Json
  | str : String → Json
  | obj : List (String × Json) → Json

/-- Process-wide mutable state visible to the application: whether the
telemetry pipeline has been configured, and the records emitted through
the module-level logger (main.py line 15).  Handlers must not change it. -/
structure AppState where
  telemetryConfigured : Bool
  logRecords : List String

/-- Expressions of the Python subset used by the handler bodies:
only string literals occur in main.py. -/
inductive PyExpr where
  | strLit : String → PyExpr

/-- Statements of the Python subset: returning a dict literal, or
raising an exception.  The two handler bodies in main.py consist of a
single return statement each; raising is included so that the
evaluator has a genuine failure mode. -/
inductive PyStmt where
  | returnDict : List (String × PyExpr) → PyStmt
  | raiseExc : String → PyStmt

/-- Evaluation of an expression of the subset. -/
def evalExpr : PyExpr → Json
  | PyExpr.strLit s => Json.str s

/-- State-passing evaluation of a handler body: a return statement
yields the dict as a JSON object, a raise yields an error, falling off
the end yields the Python value None; no statement of the subset
touches the application state. -/
def evalBodySt : List PyStmt → AppState → Except String Json × AppState
  | [], s => (Except.ok Json.null, s)
  | PyStmt.returnDict kvs :: _, s =>
      (Except.ok (Json.obj (kvs.map (fun kv => (kv.1, evalExpr kv.2)))), s)
  | PyStmt.raiseExc msg :: _, s => (Except.error msg, s)

/-- The body of the handler root (main.py lines 19-21). -/
def rootBody : List PyStmt :=
  [PyStmt.returnDict
    [("status", PyExpr.strLit "healthy"),
     ("message", PyExpr.strLit "Agentic API is running")]]

/-- The body of the handler health (main.py lines 25-27). -/
def healthBody : List PyStmt :=
  [PyStmt.returnDict [("status", PyExpr.strLit "healthy")]]

/-- An HTTP response: a status code and a JSON body. -/
structure Response where
  status : Nat
  body : Json

/-- An incoming HTTP GET request: path, headers and raw body.  Neither
handler in main.py declares a parameter, so the framework passes the
handler nothing from the request. -/
structure Request where
  path : String
  headers : List (String × String)
  rawBody : String

/-- Modelled from the spec: the hosting framework (an external
collaborator) wraps the value returned by a dict-returning handler in
an HTTP response with status 200; an exception escaping the handler
propagates as an error. -/
def serve (stmts : List PyStmt) (s : AppState) :
    Except String Response × AppState :=
  match evalBodySt stmts s with
  | (Except.ok j, s2) => (Except.ok ⟨200, j⟩, s2)
  | (Except.error e, s2) => (Except.error e, s2)

/-- The route table, transcribed from the decorators at main.py
lines 18 and 24. -/
def route : String → Option (List PyStmt)
  | "/" => some rootBody
  | "/health" => some healthBody
  | _ => none

/-- Dispatching a request: look the path up in the route table and run
the matching handler; an unknown path is not handled by this scope. -/
def handleRequest (req : Request) (s : AppState) :
    Option (Except String Response × AppState) :=
  (route req.path).map (fun stmts => serve stmts s)

/-- Observable events of one process lifetime. -/
inductive Event where
  | configureCall
  | configureReturn
  | configureRaise
  | listening
  | serveRequest (path : String)
  | shutdown
  deriving DecidableEq

/-- How the lifetime of a successfully started process ends: a normal
stop, a process termination signal, or a startup failure in a phase
after the lifespan hook. -/
inductive ExitMode where
  | normal
  | signal
  | laterPhaseFailure
  deriving DecidableEq

/-- One process lifetime as a trace of events.  The lifespan body
(main.py lines 9-11) is transcribed: call telemetry configuration,
then yield to the serving phase, with nothing after the yield.
Modelled from the spec: the framework runs the part before the yield
to completion before binding the listener, lets an exception escaping
it abort startup uncaught and unretried, and runs the release phase on
every exit path of a started service. -/
def run (configureFails : Bool) (_mode : ExitMode)
    (requests : List String) : List Event :=
  if configureFails then
    [Event.configureCall, Event.configureRaise]
  else
    Event.configureCall :: Event.configureReturn :: Event.listening ::
      (requests.map Event.serveRequest ++ [Event.shutdown])

/-- True when a trace serves some request before telemetry
configuration has returned. -/
def servedBeforeConfigured : List Event → Bool
  | [] => false
  | Event.serveRequest _ :: _ => true
  | Event.configureReturn :: _ => false
  | _ :: rest => servedBeforeConfigured rest

/-- The number of calls to the telemetry configure operation in a
trace. -/
def countConfigureCalls : List Event → Nat
  | [] => 0
  | Event.configureCall :: rest => countConfigureCalls rest + 1
  | _ :: rest => countConfigureCalls rest

/-- The last event of a trace, if any. -/
def lastEvent : List Event → Option Event
  | [] => none
  | [e] => some e
  | _ :: e :: rest => lastEvent (e :: rest)

/-- The release phase of the lifespan hook: the code after the yield
(main.py line 11) is empty, so it returns the state unchanged. -/
def lifespanTeardown (s : AppState) : AppState := s

/-- Looking a key up in a list of JSON object fields. -/
def lookupIn (key : String) : List (String × Json) → Option Json
  | [] => none
  | (k, v) :: rest => if k = key then some v else lookupIn key rest

/-- The value of a key of a JSON object; none on non-objects. -/
def lookupKey (key : String) : Json → Option Json
  | Json.obj kvs => lookupIn key kvs
  | _ => none

theorem countConfigureCalls_map_serve (reqs : List String) (t : List Event) :
    countConfigureCalls (reqs.map Event.serveRequest ++ t) =
      countConfigureCalls t := by
  induction reqs with
  | nil => rfl
  | cons a l ih => simp [countConfigureCalls, ih]

theorem lastEvent_cons_concat (e : Event) (l : List Event) :
    lastEvent (e :: (l ++ [Event.shutdown])) = some Event.shutdown := by
  induction l generalizing e with
  | nil => rfl
  | cons a t ih => simpa [lastEvent] using ih a

/-- C1: every invocation of GET / returns the fixed object with keys
status = "healthy" and message = "Agentic API is running", with HTTP
status 200, whatever the request headers, request body and application
state are. -/
theorem c1_root_fixed_response (h : List (String × String)) (b : String)
    (s : AppState) :
    handleRequest ⟨"/", h, b⟩ s =
      some (Except.ok ⟨200, Json.obj
        [("status", Json.str "healthy"),
         ("message", Json.str "Agentic API is running")]⟩, s) := rfl

/-- C2: every invocation of GET /health returns the fixed object with
the single key status = "healthy", with HTTP status 200, whatever the
request headers, request body and application state are. -/
theorem c2_health_fixed_response (h : List (String × String)) (b : String)
    (s : AppState) :
    handleRequest ⟨"/health", h, b⟩ s =
      some (Except.ok ⟨200, Json.obj [("status", Json.str "healthy")]⟩,
        s) := rfl

/-- C3: in every process lifetime, whether configuration fails or not
and however the lifetime ends, no request is served before the
telemetry configure call has returned. -/
theorem c3_no_request_before_configure (f : Bool) (m : ExitMode)
    (reqs : List String) :
    servedBeforeConfigured (run f m reqs) = false := by
  cases f <;> rfl

/-- C4: if the telemetry configure call raises during startup, the
trace is exactly call-then-raise: the process never reaches a
listening state, no request is ever served, and the configure call is
not retried. -/
theorem c4_fail_fast (m : ExitMode) (reqs : List String) :
    run true m reqs = [Event.configureCall, Event.configureRaise] ∧
    Event.listening ∉ run true m reqs ∧
    (∀ p, Event.serveRequest p ∉ run true m reqs) ∧
    countConfigureCalls (run true m reqs) = 1 := by
  refine ⟨rfl, ?_, ?_, rfl⟩ <;> simp [run]

/-- C5: any two invocations of GET / produce identical responses, and
likewise for GET /health: the response depends neither on the request
headers or body nor on the application state. -/
theorem c5_handlers_deterministic (h1 h2 : List (String × String))
    (b1 b2 : String) (s1 s2 : AppState) :
    (handleRequest ⟨"/", h1, b1⟩ s1).map Prod.fst =
      (handleRequest ⟨"/", h2, b2⟩ s2).map Prod.fst ∧
    (handleRequest ⟨"/health", h1, b1⟩ s1).map Prod.fst =
      (handleRequest ⟨"/health", h2, b2⟩ s2).map Prod.fst := ⟨rfl, rfl⟩

/-- C6: in every process lifetime, whether startup succeeds or fails
and however the lifetime ends, the telemetry configure operation is
called exactly once. -/
theorem c6_configure_exactly_once (f : Bool) (m : ExitMode)
    (reqs : List String) :
    countConfigureCalls (run f m reqs) = 1 := by
  cases f
  · simp [run, countConfigureCalls, countConfigureCalls_map_serve]
  · rfl

/-- C7: serving GET / or GET /health leaves the application state
unchanged, both at the level of the handler body evaluation and at the
level of request dispatch: the handlers are stateless. -/
theorem c7_handlers_stateless (s : AppState) (h : List (String × String))
    (b : String) :
    (evalBodySt rootBody s).2 = s ∧
    (evalBodySt healthBody s).2 = s ∧
    (handleRequest ⟨"/", h, b⟩ s).map Prod.snd = some s ∧
    (handleRequest ⟨"/health", h, b⟩ s).map Prod.snd = some s :=
  ⟨rfl, rfl, rfl, rfl⟩

/-- C8: both handlers terminate normally on every invocation: the
evaluation of each body yields an ok response, never an error, from
any application state and for any request contents. -/
theorem c8_handlers_never_raise (s : AppState) (h : List (String × String))
    (b : String) :
    (∃ r, handleRequest ⟨"/", h, b⟩ s = some (Except.ok r, s)) ∧
    (∃ r, handleRequest ⟨"/health", h, b⟩ s = some (Except.ok r, s)) :=
  ⟨⟨_, rfl⟩, ⟨_, rfl⟩⟩

/-- C9: the release phase of the lifespan hook changes no application
state, and in every lifetime of a started service - normal stop,
termination signal, or startup failure in a later phase - the trace
ends with the shutdown event. -/
theorem c9_teardown_noop_every_exit (s : AppState) (m : ExitMode)
    (reqs : List String) :
    lifespanTeardown s = s ∧
    lastEvent (run false m reqs) = some Event.shutdown := by
  refine ⟨rfl, ?_⟩
  simpa [run, lastEvent] using
    lastEvent_cons_concat Event.listening (reqs.map Event.serveRequest)

/-- C10: for any pair of invocations, from any states and with any
request contents, both endpoints answer ok and the value of the status
key of the GET / response body equals the value of the status key of
the GET /health response body, both being the string "healthy". -/
theorem c10_status_keys_agree (s1 s2 : AppState)
    (h1 h2 : List (String × String)) (b1 b2 : String) :
    ∃ r1 r2 : Response,
      handleRequest ⟨"/", h1, b1⟩ s1 = some (Except.ok r1, s1) ∧
      handleRequest ⟨"/health", h2, b2⟩ s2 = some (Except.ok r2, s2) ∧
      lookupKey "status" r1.body = lookupKey "status" r2.body ∧
      lookupKey "status" r1.body = some (Json.str "healthy") := by
  refine ⟨_, _, rfl, rfl, ?_, ?_⟩ <;> rfl

end AgenticApi
